import Mathlib

/-!
Shallow embedding of the QuadraChat proxy server (`server` variant in
`src/unnamed/part_002`): plan catalog, quota ledger, payment transactions,
provider selection, the retry/backoff driver `callOpenAIWithRetry`, and the
`/api/chat` and `/api/payment/verify` request handlers.

JavaScript runtime values that the handlers inspect dynamically (the request
body's `messages` field, upstream JSON payloads) are embedded as a small
inductive `JsValue` with JS truthiness, property lookup and indexing.
Nondeterministic inputs are passed explicitly: the upstream fetch behaviour is
an oracle `Nat → FetchOutcome` indexed by attempt, `Math.random()*1000` is a
jitter stream `Nat → ℚ`, `uuidv4()` and `new Date()` are explicit arguments.
-/

namespace QuadraChat

/-- A JavaScript runtime value, restricted to the shapes the server inspects. -/
inductive JsValue where
  | undef
  | null
  | bool (b : Bool)
  | num (n : Int)
  | str (s : String)
  | arr (xs : List JsValue)
  | obj (fields : List (String × JsValue))

namespace JsValue

/-- JS truthiness: `undefined`, `null`, `false`, `0`, `""` are falsy;
arrays and objects (even empty ones) are truthy. -/
def truthy : JsValue → Bool
  | undef => false
  | null => false
  | bool b => b
  | num n => n != 0
  | str s => s ≠ ""
  | arr _ => true
  | obj _ => true

/-- `Array.isArray(v)`. -/
def isArray : JsValue → Bool
  | arr _ => true
  | _ => false

/-- Property access `v.k` on a non-null base: missing property gives
`undefined`; accessing a property on `null`/`undefined` is a TypeError and is
modelled separately where it can occur. -/
def getField : JsValue → String → JsValue
  | obj fields, k =>
    match fields.lookup k with
    | some v => v
    | none => undef
  | _, _ => undef

/-- Index access `v[i]` for a numeric index on array values (element, or
`undefined` out of range); on objects it is property lookup of the decimal
string; other bases give `undefined` in the cases the server exercises. -/
def getIndex : JsValue → Nat → JsValue
  | arr xs, i =>
    match xs.get? i with
    | some v => v
    | none => undef
  | obj fields, i => getField (obj fields) (toString i)
  | _, _ => undef

end JsValue

/-- A static plan catalog entry (`PLANS` in the server). -/
structure Plan where
  name : String
  price : Nat
  tokenLimit : Nat
deriving Repr, DecidableEq

/-- The `PLANS` object: key lookup gives `undefined` (here `none`) for any
other key. -/
def PLANS : String → Option Plan
  | "FREE" => some ⟨"Free Pack", 0, 100000⟩
  | "COLLEGE" => some ⟨"College Pack", 99, 500000⟩
  | "LITE" => some ⟨"Lite Pack", 299, 2000000⟩
  | "PRO" => some ⟨"Pro Pack", 599, 10000000⟩
  | _ => none

/-- One user's entitlement record (`userEntitlements[userId]`). -/
structure UserEntitlement where
  userId : String
  plan : String
  tokenUsage : Nat
  tokenLimit : Nat
  expiresAt : Option Nat
deriving Repr, DecidableEq

/-- One payment transaction record (`paymentTransactions[transactionId]`).
Timestamps (`new Date()`) are abstract ticks. -/
structure PaymentTransaction where
  id : String
  userId : String
  plan : String
  amount : Nat
  status : String
  createdAt : Nat
  updatedAt : Nat
deriving Repr, DecidableEq

/-- The server's in-memory mutable stores, as association lists keyed by
userId / transactionId. -/
structure ServerState where
  userEntitlements : List (String × UserEntitlement)
  paymentTransactions : List (String × PaymentTransaction)
deriving Repr, DecidableEq

/-- State at process start: both stores empty. -/
def initialState : ServerState := ⟨[], []⟩

/-- Overwrite-or-insert into an association list (JS `store[key] = v`). -/
def assocSet {α : Type} (l : List (String × α)) (k : String) (v : α) :
    List (String × α) :=
  match l with
  | [] => [(k, v)]
  | (k', v') :: rest =>
    if k' = k then (k, v) :: rest else (k', v') :: assocSet rest k v

/-- Key lookup in an association list (JS `store[key]`, `undefined` when the
key is absent). -/
def assocGet {α : Type} (l : List (String × α)) (k : String) : Option α :=
  match l with
  | [] => none
  | (k', v) :: rest => if k' = k then some v else assocGet rest k

/-- `getUserEntitlements(userId)`: lazily creates a FREE-plan record on first
reference, then returns the stored record. Returns the record and the
(possibly extended) state. -/
def getUserEntitlements (s : ServerState) (userId : String) :
    UserEntitlement × ServerState :=
  match assocGet s.userEntitlements userId with
  | some e => (e, s)
  | none =>
    let e : UserEntitlement := ⟨userId, "FREE", 0, (100000 : Nat), none⟩
    (e, { s with userEntitlements := assocSet s.userEntitlements userId e })

/-- `updateUserTokenUsage(userId, tokens)`: adds `tokens` to the entitlement's
`tokenUsage` (after lazy init); no clamping at the limit. -/
def updateUserTokenUsage (s : ServerState) (userId : String) (tokens : Nat) :
    UserEntitlement × ServerState :=
  let (e, s1) := getUserEntitlements s userId
  let e2 := { e with tokenUsage := e.tokenUsage + tokens }
  (e2, { s1 with userEntitlements := assocSet s1.userEntitlements userId e2 })

/-- `hasExceededTokenLimit(userId)`: `tokenUsage >= tokenLimit` on the (lazily
initialized) entitlement. -/
def hasExceededTokenLimit (s : ServerState) (userId : String) :
    Bool × ServerState :=
  let (e, s1) := getUserEntitlements s userId
  (decide (e.tokenUsage ≥ e.tokenLimit), s1)

/-- `createPaymentTransaction(userId, plan)`: fresh `pending` transaction.
The generated uuid and the current time are explicit arguments; the JS code
reads `PLANS[plan].price`, which throws if `plan` is not a catalog key (the
order endpoint checks `PLANS[plan]` first), so the result is `none` there. -/
def createPaymentTransaction (s : ServerState) (userId plan : String)
    (txId : String) (now : Nat) : Option (PaymentTransaction × ServerState) :=
  match PLANS plan with
  | none => none
  | some p =>
    let t : PaymentTransaction := ⟨txId, userId, plan, p.price, "pending", now, now⟩
    some (t, { s with paymentTransactions := assocSet s.paymentTransactions txId t })

/-- `updatePaymentTransactionStatus(transactionId, status)`: returns `null`
(and leaves the store untouched) when the id is unknown; otherwise overwrites
`status` and `updatedAt` unconditionally — there is no check that the
transaction is still `pending`. -/
def updatePaymentTransactionStatus (s : ServerState) (txId status : String)
    (now : Nat) : Option PaymentTransaction × ServerState :=
  match assocGet s.paymentTransactions txId with
  | none => (none, s)
  | some t =>
    let t2 := { t with status := status, updatedAt := now }
    (some t2, { s with paymentTransactions := assocSet s.paymentTransactions txId t2 })

/-- `upgradeUserPlan(userId, plan)`: first the lazy `getUserEntitlements`
mutation happens, then `PLANS[plan].tokenLimit` is read — a non-catalog key
throws there (modelled as `none` result) with the lazy init already applied.
On a catalog key it overwrites `plan` and `tokenLimit` and assigns
`expiresAt = null`; `tokenUsage` is not touched. -/
def upgradeUserPlan (s : ServerState) (userId plan : String) :
    Option UserEntitlement × ServerState :=
  let (e, s1) := getUserEntitlements s userId
  match PLANS plan with
  | none => (none, s1)
  | some p =>
    let e2 := { e with plan := plan, tokenLimit := p.tokenLimit, expiresAt := none }
    (some e2, { s1 with userEntitlements := assocSet s1.userEntitlements userId e2 })

/-- JS `String.prototype.includes(pat)`: `pat` occurs as a contiguous
substring of `s`. -/
def strIncludes (s pat : String) : Bool :=
  s.toList.tails.any fun t => pat.toList.isPrefixOf t

/-- The process environment keys the provider switch reads. -/
structure Env where
  OPENROUTER_API_KEY : Option String
  OPENAI_GPT5_NANO_KEY : Option String
deriving Repr, DecidableEq

/-- What the provider switch in `callOpenAIWithRetry` produces: the chosen
credential, endpoint and model. -/
structure ProviderCfg where
  apiKey : Option String
  endpoint : String
  model : String
deriving Repr, DecidableEq

/-- The `switch(provider)` at the top of `callOpenAIWithRetry`. In the
`default` branch the endpoint variable keeps its initial value, which is the
same OpenRouter URL, and the key/model are reassigned to the OpenRouter
defaults. -/
def selectProvider (env : Env) : String → ProviderCfg
  | "openrouter" =>
    ⟨env.OPENROUTER_API_KEY, "https://openrouter.ai/api/v1/chat/completions",
      "openai/gpt-3.5-turbo"⟩
  | "gpt5-nano" =>
    ⟨env.OPENAI_GPT5_NANO_KEY, "https://openrouter.ai/api/v1/chat/completions",
      "openai/gpt-5-nano"⟩
  | _ =>
    ⟨env.OPENROUTER_API_KEY, "https://openrouter.ai/api/v1/chat/completions",
      "openai/gpt-3.5-turbo"⟩

/-- The behaviour of one `fetch` attempt, supplied as an oracle indexed by the
attempt number: either an HTTP response (status, parsed `retry-after` header
in seconds when present, error body text, parsed JSON body), or `fetch`
itself rejecting (network failure), with a flag for whether the thrown error
is a `TypeError`. -/
inductive FetchOutcome where
  | resp (status : Nat) (retryAfter : Option Nat) (bodyText : String) (data : JsValue)
  | fetchError (message : String) (isTypeError : Bool)

/-- The errors `callOpenAIWithRetry` can throw, as a tagged union; the JS code
dispatches on the `message` strings reproduced by `CallError.message`. -/
inductive CallError where
  | noApiKey (provider : String)
  | rateLimitExceeded (provider : String)
  | paymentRequired
  | apiError (provider : String) (status : Nat) (body : String)
  | invalidStructure (provider : String)
  | noContent (provider : String)
  | notString (provider : String)
  | networkError (message : String) (isTypeError : Bool)
  | unknownError
deriving Repr, DecidableEq

/-- The `.message` of each thrown `Error`, exactly as built in the source. -/
def CallError.message : CallError → String
  | .noApiKey p => p ++ " API key is not configured"
  | .rateLimitExceeded p => p ++ " rate limit exceeded. Please try again later."
  | .paymentRequired => "Payment required. Please add credits to your account."
  | .apiError p status body => p ++ " API error: " ++ toString status ++ " - " ++ body
  | .invalidStructure p => "Invalid response structure from " ++ p ++ " API"
  | .noContent p => "No message content in response from " ++ p ++ " API"
  | .notString p => "Message content is not a string from " ++ p ++ " API"
  | .networkError m _ => m
  | .unknownError => "Unknown error occurred"

/-- `error instanceof TypeError`: only an error thrown by `fetch` itself can
be a `TypeError` here. -/
def CallError.isTypeError : CallError → Bool
  | .networkError _ t => t
  | _ => false

/-- `Math.min(Math.pow(2, attempt) * 1000 + Math.random() * 1000, 30000)`,
with the sampled `Math.random() * 1000` value passed in as `jitter`. -/
def backoffDelay (attempt : Nat) (jitter : ℚ) : ℚ :=
  min ((2 : ℚ) ^ attempt * 1000 + jitter) 30000

/-- The delay chosen in the 429 branch: `parseInt(retryAfter) * 1000` when the
server sent a `retry-after` header, otherwise exponential backoff with
jitter. -/
def rateLimitDelay (retryAfter : Option Nat) (attempt : Nat) (jitter : ℚ) : ℚ :=
  match retryAfter with
  | some s => (s : ℚ) * 1000
  | none => backoffDelay attempt jitter

/-- `data.choices[0].message?.content` (the `?.` guards only the `message`
base being `null`/`undefined`; other non-object bases give `undefined` via
property access). -/
def messageContentOf (data : JsValue) : JsValue :=
  let msg := ((data.getField "choices").getIndex 0).getField "message"
  match msg with
  | .undef => .undef
  | .null => .undef
  | m => m.getField "content"

/-- What one loop iteration decides: return the data, throw an error out of
the function, sleep and continue (the catch-path variants record the error as
`lastError`, the in-`try` 429 path does not), or continue without sleeping
(the catch branch for messages containing `'rate limit'`). -/
inductive AttemptStep where
  | success (data : JsValue)
  | fail (e : CallError)
  | sleepRetry (delay : ℚ) (catchErr : Option CallError)
  | continueRetry (e : CallError)

/-- Response-structure validation on an `ok` response: `!data.choices ||
!data.choices[0]` throws Invalid-structure; a `null`/`undefined`
`messageContent` throws No-content; a non-string throws Not-a-string; an
empty (after `trim`) string only logs a warning and the data is returned. -/
def validateResponse (provider : String) (data : JsValue) : AttemptStep :=
  if !(data.getField "choices").truthy || !((data.getField "choices").getIndex 0).truthy then
    .fail (.invalidStructure provider)
  else
    match messageContentOf data with
    | .undef => .fail (.noContent provider)
    | .null => .fail (.noContent provider)
    | .str _ => .success data
    | _ => .fail (.notString provider)

/-- The `catch` block: record `lastError`; rethrow at the last attempt;
network-looking errors (`TypeError` or message containing `'fetch'`) back off
and retry; messages containing `'rate limit'` retry with no sleep; anything
else is rethrown immediately. -/
def catchDispatch (maxRetries attempt : Nat) (jitter : ℚ) (e : CallError) :
    AttemptStep :=
  if attempt = maxRetries then .fail e
  else if e.isTypeError || strIncludes e.message "fetch" then
    .sleepRetry (backoffDelay attempt jitter) (some e)
  else if strIncludes e.message "rate limit" then .continueRetry e
  else .fail e

/-- One iteration of the retry loop for a given fetch outcome: the `try` body
(status dispatch on `!response.ok`, then response validation), with every
throw inside the `try` routed through `catchDispatch`. -/
def attemptStep (provider : String) (maxRetries attempt : Nat) (jitter : ℚ) :
    FetchOutcome → AttemptStep
  | .fetchError m t => catchDispatch maxRetries attempt jitter (.networkError m t)
  | .resp status retryAfter bodyText data =>
    if 200 ≤ status ∧ status < 300 then
      match validateResponse provider data with
      | .fail e => catchDispatch maxRetries attempt jitter e
      | st => st
    else if status = 429 then
      if attempt < maxRetries then
        .sleepRetry (rateLimitDelay retryAfter attempt jitter) none
      else catchDispatch maxRetries attempt jitter (.rateLimitExceeded provider)
    else if status = 402 then
      catchDispatch maxRetries attempt jitter .paymentRequired
    else
      catchDispatch maxRetries attempt jitter (.apiError provider status bodyText)

/-- Result of a whole `callOpenAIWithRetry` run, with the number of fetch
attempts performed and the sequence of sleeps taken (in order). -/
structure RetryOutcome where
  result : Except CallError JsValue
  attempts : Nat
  sleeps : List ℚ

/-- The `for (let attempt = 0; attempt <= maxRetries; attempt++)` loop.
`fuel` counts the remaining iterations (`maxRetries + 1 - attempt`); the
fuel-0 case is the `throw lastError || ...` line after the loop. -/
def runRetryLoop (provider : String) (maxRetries : Nat) (oracle : Nat → FetchOutcome)
    (jitter : Nat → ℚ) : Nat → Nat → Option CallError → Nat → List ℚ → RetryOutcome
  | 0, _, lastError, n, sleeps =>
    ⟨.error (lastError.getD .unknownError), n, sleeps.reverse⟩
  | fuel + 1, attempt, lastError, n, sleeps =>
    match attemptStep provider maxRetries attempt (jitter attempt) (oracle attempt) with
    | .success data => ⟨.ok data, n + 1, sleeps.reverse⟩
    | .fail e => ⟨.error e, n + 1, sleeps.reverse⟩
    | .sleepRetry d catchErr =>
      runRetryLoop provider maxRetries oracle jitter fuel (attempt + 1)
        (match catchErr with | some e => some e | none => lastError) (n + 1) (d :: sleeps)
    | .continueRetry e =>
      runRetryLoop provider maxRetries oracle jitter fuel (attempt + 1) (some e) (n + 1) sleeps

/-- `callOpenAIWithRetry(messages, maxRetries, provider)`: provider switch,
missing-credential check, then the retry loop. The request body does not
influence control flow, so `messages` is not a parameter of the model; the
fetch behaviour is the `oracle`. -/
def callOpenAIWithRetry (env : Env) (oracle : Nat → FetchOutcome)
    (jitter : Nat → ℚ) (maxRetries : Nat) (provider : String) : RetryOutcome :=
  match (selectProvider env provider).apiKey with
  | none => ⟨.error (.noApiKey provider), 0, []⟩
  | some _ => runRetryLoop provider maxRetries oracle jitter (maxRetries + 1) 0 none 0 []

/-- `(msg.content?.length || 0)` for one element of `messages`; reading
`.content` on `null`/`undefined` throws a `TypeError` (`none`). JS string
`.length` (UTF-16 units) is modelled as character count. -/
def msgContentLen : JsValue → Option Nat
  | .null => none
  | .undef => none
  | m =>
    match m.getField "content" with
    | .str s => some s.length
    | .arr xs => some xs.length
    | _ => some 0

/-- `messages.reduce((total, msg) => total + (msg.content?.length || 0), 0)`;
`none` when some element makes the callback throw. -/
def inputTokensOf (msgs : List JsValue) : Option Nat :=
  (msgs.mapM msgContentLen).map List.sum

/-- `apiResponse.choices[0]?.message?.content?.length || 0` (evaluated only
on responses that passed validation, so the unguarded `choices[0]` access
cannot throw there). -/
def outputTokensOf (data : JsValue) : Nat :=
  match (data.getField "choices").getIndex 0 with
  | .undef => 0
  | .null => 0
  | c =>
    match c.getField "message" with
    | .undef => 0
    | .null => 0
    | m =>
      match m.getField "content" with
      | .str s => s.length
      | .arr xs => xs.length
      | _ => 0

/-- The `tokenInfo` object appended to a successful `/api/chat` response. -/
structure TokenInfo where
  used : Nat
  totalUsage : Nat
  limit : Nat
  remaining : Int
deriving Repr, DecidableEq

/-- The responses `/api/chat` can produce: 400 `'Messages array is
required'`; 402 quota with the current entitlement; 200 with data and token
info; and the `catch` block's 500/429/402/500 classification by message
substring. -/
inductive ChatResponse where
  | badRequest
  | quotaExceeded (currentPlan : UserEntitlement)
  | ok (data : JsValue) (tokenInfo : TokenInfo)
  | configError (message : String)
  | rateLimited (message : String)
  | paymentError (message : String)
  | serverError (message : String)

/-- The `catch` block of the `/api/chat` handler: classify the thrown error
by its message. -/
def mapChatError (e : CallError) : ChatResponse :=
  if strIncludes e.message "API key" then
    .configError ("Server configuration error: " ++ e.message)
  else if strIncludes e.message "rate limit" || strIncludes e.message "Rate limit" then
    .rateLimited e.message
  else if strIncludes e.message "Payment required" then
    .paymentError e.message
  else
    .serverError ("Failed to process request: " ++ e.message)

/-- The elements of an array value (used after `Array.isArray` held). -/
def JsValue.elements : JsValue → List JsValue
  | .arr xs => xs
  | _ => []

/-- Message of the runtime `TypeError` raised when the token-accounting
`reduce` reads `.content` of a `null`/`undefined` element; its exact text
contains none of the `catch` block's routing substrings, so it reaches the
generic 500 branch. -/
def accountingTypeErrorMessage : String :=
  "Cannot read properties of null or undefined"

/-- `app.post('/api/chat')`: validation (`!messages || !Array.isArray`),
quota pre-check, dispatch through `callOpenAIWithRetry` with `maxRetries = 5`
and the request's provider, token accounting, response shaping; thrown errors
go through `mapChatError`. `provider` and `userId` are the destructured body
fields after their defaults (`'openrouter'`, `'anonymous'`) applied. -/
def chatHandler (env : Env) (s : ServerState) (messages : JsValue)
    (provider userId : String) (oracle : Nat → FetchOutcome) (jitter : Nat → ℚ) :
    ChatResponse × ServerState :=
  if !(messages.truthy && messages.isArray) then (.badRequest, s)
  else
    let (exceeded, s1) := hasExceededTokenLimit s userId
    if exceeded then (.quotaExceeded (getUserEntitlements s1 userId).1, s1)
    else
      match (callOpenAIWithRetry env oracle jitter 5 provider).result with
      | .error e => (mapChatError e, s1)
      | .ok data =>
        match inputTokensOf messages.elements with
        | none =>
          (.serverError ("Failed to process request: " ++ accountingTypeErrorMessage), s1)
        | some inTok =>
          let total := inTok + outputTokensOf data
          let (ent, s2) := updateUserTokenUsage s1 userId total
          (.ok data ⟨total, ent.tokenUsage, ent.tokenLimit,
            (ent.tokenLimit : Int) - (ent.tokenUsage : Int)⟩, s2)

/-- The responses `/api/payment/verify` can produce. -/
inductive VerifyResponse where
  | missingParams
  | notConfigured
  | success (entitlements : UserEntitlement)
  | failure
deriving Repr, DecidableEq

/-- `app.post('/api/payment/verify')`: presence check on the six body fields
(modelled as strings, where JS falsiness is exactly `""`), gateway-configured
check, then `updatePaymentTransactionStatus(transactionId, 'completed')`
whose `null` result is ignored, `upgradeUserPlan` (throwing into the `catch`
→ 500 on a non-catalog plan), and a `getUserEntitlements` snapshot in the
success body. Signature verification is stubbed in the source. -/
def verifyPaymentHandler (s : ServerState) (razorpayConfigured : Bool)
    (userId plan transactionId razorpayPaymentId razorpayOrderId razorpaySignature : String)
    (now : Nat) : VerifyResponse × ServerState :=
  if userId = "" || plan = "" || transactionId = "" || razorpayPaymentId = ""
      || razorpayOrderId = "" || razorpaySignature = "" then
    (.missingParams, s)
  else if !razorpayConfigured then (.notConfigured, s)
  else
    let (_, s1) := updatePaymentTransactionStatus s transactionId "completed" now
    match upgradeUserPlan s1 userId plan with
    | (none, s2) => (.failure, s2)
    | (some _, s2) =>
      let (ent, s3) := getUserEntitlements s2 userId
      (.success ent, s3)

/-- The primitive mutations of the in-memory stores; every handler's effect
on `ServerState` is a composition of these (the chat handler performs
`getEnt` then `recordUsage`; the verify handler `settleTx`, `upgrade`,
`getEnt`; the order handler `createTx`). -/
inductive LedgerOp where
  | getEnt (userId : String)
  | recordUsage (userId : String) (tokens : Nat)
  | upgrade (userId plan : String)
  | createTx (userId plan txId : String) (now : Nat)
  | settleTx (txId status : String) (now : Nat)

/-- Apply one primitive operation to the stores. -/
def applyOp (s : ServerState) : LedgerOp → ServerState
  | .getEnt u => (getUserEntitlements s u).2
  | .recordUsage u t => (updateUserTokenUsage s u t).2
  | .upgrade u p => (upgradeUserPlan s u p).2
  | .createTx u p i now =>
    match createPaymentTransaction s u p i now with
    | none => s
    | some (_, s2) => s2
  | .settleTx i st now => (updatePaymentTransactionStatus s i st now).2

/-- Apply a sequence of operations from left to right. -/
def applyOps (s : ServerState) (ops : List LedgerOp) : ServerState :=
  ops.foldl applyOp s

/-- A state is reachable when some operation sequence produces it from the
empty start state. -/
def Reachable (s : ServerState) : Prop :=
  ∃ ops : List LedgerOp, s = applyOps initialState ops

/-- The checks an upstream JSON body must pass for `callOpenAIWithRetry` to
return it: truthy `choices`, truthy `choices[0]`, and a string
`choices[0].message?.content` (the empty string passes; the code only logs a
warning for it). -/
def respValid (data : JsValue) : Bool :=
  (data.getField "choices").truthy && ((data.getField "choices").getIndex 0).truthy &&
    (match messageContentOf data with | .str _ => true | _ => false)

theorem validateResponse_of_valid (p : String) (d : JsValue) (h : respValid d = true) :
    validateResponse p d = .success d := by
  unfold respValid at h
  rw [Bool.and_eq_true, Bool.and_eq_true] at h
  obtain ⟨⟨h1, h2⟩, h3⟩ := h
  unfold validateResponse
  rw [h1, h2]
  simp only [Bool.not_true, Bool.or_self, Bool.false_eq_true, if_false]
  cases hm : messageContentOf d <;> simp [hm] at h3 ⊢

theorem validateResponse_of_invalid (p : String) (d : JsValue) (h : respValid d = false) :
    validateResponse p d = .fail (.invalidStructure p) ∨
    validateResponse p d = .fail (.noContent p) ∨
    validateResponse p d = .fail (.notString p) := by
  unfold respValid at h
  unfold validateResponse
  by_cases h1 : (d.getField "choices").truthy = true
  · by_cases h2 : ((d.getField "choices").getIndex 0).truthy = true
    · rw [h1, h2] at h ⊢
      simp only [Bool.true_and] at h
      simp only [Bool.not_true, Bool.or_self, Bool.false_eq_true, if_false]
      cases hm : messageContentOf d <;> simp [hm] at h ⊢
    · rw [Bool.not_eq_true] at h2
      rw [h2]
      simp
  · rw [Bool.not_eq_true] at h1
    rw [h1]
    simp

theorem assocGet_assocSet {α : Type} (l : List (String × α)) (k q : String) (v : α) :
    assocGet (assocSet l k v) q = if k = q then some v else assocGet l q := by
  induction l with
  | nil => simp [assocSet, assocGet]
  | cons hd tl ih =>
    obtain ⟨k', v'⟩ := hd
    by_cases h1 : k' = k
    · subst h1
      by_cases h2 : k' = q <;> simp [assocSet, assocGet, h2]
    · by_cases h2 : k' = q
      · subst h2
        have hk : ¬k = k' := fun hh => h1 hh.symm
        simp [assocSet, assocGet, h1, hk]
      · simp [assocSet, assocGet, h1, h2, ih]

theorem getUserEntitlements_of_some (s : ServerState) (u : String) (e : UserEntitlement)
    (h : assocGet s.userEntitlements u = some e) : getUserEntitlements s u = (e, s) := by
  unfold getUserEntitlements
  rw [h]

theorem getUserEntitlements_pay (s : ServerState) (u : String) :
    (getUserEntitlements s u).2.paymentTransactions = s.paymentTransactions := by
  unfold getUserEntitlements
  cases assocGet s.userEntitlements u <;> rfl

theorem getUserEntitlements_snd_get (s : ServerState) (u : String) :
    assocGet (getUserEntitlements s u).2.userEntitlements u =
      some (getUserEntitlements s u).1 := by
  unfold getUserEntitlements
  cases hg : assocGet s.userEntitlements u with
  | some e => simpa using hg
  | none => simp [assocGet_assocSet]

theorem updateUserTokenUsage_pay (s : ServerState) (u : String) (t : Nat) :
    (updateUserTokenUsage s u t).2.paymentTransactions = s.paymentTransactions := by
  rcases hE : getUserEntitlements s u with ⟨e, s1⟩
  have h1 : s1.paymentTransactions = s.paymentTransactions := by
    have := getUserEntitlements_pay s u
    rw [hE] at this
    exact this
  simp [updateUserTokenUsage, hE, h1]

theorem upgradeUserPlan_pay (s : ServerState) (u plan : String) :
    (upgradeUserPlan s u plan).2.paymentTransactions = s.paymentTransactions := by
  rcases hE : getUserEntitlements s u with ⟨e, s1⟩
  have h1 : s1.paymentTransactions = s.paymentTransactions := by
    have := getUserEntitlements_pay s u
    rw [hE] at this
    exact this
  unfold upgradeUserPlan
  rw [hE]
  cases PLANS plan <;> simp [h1]

theorem updatePaymentTransactionStatus_ents (s : ServerState) (i st : String) (now : Nat) :
    (updatePaymentTransactionStatus s i st now).2.userEntitlements = s.userEntitlements := by
  unfold updatePaymentTransactionStatus
  cases assocGet s.paymentTransactions i <;> rfl

theorem createPaymentTransaction_ents (s : ServerState) (u p i : String) (now : Nat)
    (t : PaymentTransaction) (s2 : ServerState)
    (h : createPaymentTransaction s u p i now = some (t, s2)) :
    s2.userEntitlements = s.userEntitlements := by
  unfold createPaymentTransaction at h
  cases hp : PLANS p <;> rw [hp] at h
  · exact absurd h (by simp)
  · simp only [Option.some.injEq, Prod.mk.injEq] at h
    rw [← h.2]

/-- Every stored entitlement has `expiresAt = null`: records are created with
`expiresAt: null` and `upgradeUserPlan` reassigns `null`. -/
def entExpiryInv (s : ServerState) : Prop :=
  ∀ u e, assocGet s.userEntitlements u = some e → e.expiresAt = none

theorem entExpiryInv_init : entExpiryInv initialState := by
  intro u e h
  simp [initialState, assocGet] at h

theorem entExpiry_getEnt (s : ServerState) (u : String) (h : entExpiryInv s) :
    (getUserEntitlements s u).1.expiresAt = none ∧
      entExpiryInv (getUserEntitlements s u).2 := by
  unfold getUserEntitlements
  cases hg : assocGet s.userEntitlements u with
  | some e => exact ⟨h u e hg, h⟩
  | none =>
    refine ⟨rfl, ?_⟩
    intro u' e' h'
    simp only [assocGet_assocSet] at h'
    by_cases hq : u = u'
    · rw [if_pos hq] at h'
      cases h'
      rfl
    · rw [if_neg hq] at h'
      exact h u' e' h'

theorem entExpiryInv_applyOp (s : ServerState) (op : LedgerOp) (h : entExpiryInv s) :
    entExpiryInv (applyOp s op) := by
  cases op with
  | getEnt u => exact (entExpiry_getEnt s u h).2
  | recordUsage u t =>
    rcases hE : getUserEntitlements s u with ⟨e, s1⟩
    have he : e.expiresAt = none := by
      have := (entExpiry_getEnt s u h).1
      rw [hE] at this
      exact this
    have hs1 : entExpiryInv s1 := by
      have := (entExpiry_getEnt s u h).2
      rw [hE] at this
      exact this
    intro u' e' h'
    simp only [applyOp, updateUserTokenUsage, hE, assocGet_assocSet] at h'
    by_cases hq : u = u'
    · rw [if_pos hq] at h'
      cases h'
      exact he
    · rw [if_neg hq] at h'
      exact hs1 u' e' h'
  | upgrade u p =>
    rcases hE : getUserEntitlements s u with ⟨e, s1⟩
    have hs1 : entExpiryInv s1 := by
      have := (entExpiry_getEnt s u h).2
      rw [hE] at this
      exact this
    intro u' e' h'
    simp only [applyOp, upgradeUserPlan, hE] at h'
    cases hp : PLANS p <;> rw [hp] at h'
    · exact hs1 u' e' h'
    · simp only [assocGet_assocSet] at h'
      by_cases hq : u = u'
      · rw [if_pos hq] at h'
        cases h'
        rfl
      · rw [if_neg hq] at h'
        exact hs1 u' e' h'
  | createTx u p i now =>
    intro u' e' h'
    simp only [applyOp] at h'
    rcases hc : createPaymentTransaction s u p i now with _ | ⟨t, s2⟩ <;> rw [hc] at h'
    · exact h u' e' h'
    · rw [createPaymentTransaction_ents s u p i now t s2 hc] at h'
      exact h u' e' h'
  | settleTx i st now =>
    intro u' e' h'
    simp only [applyOp] at h'
    rw [updatePaymentTransactionStatus_ents] at h'
    exact h u' e' h'

theorem entExpiryInv_reachable (s : ServerState) (h : Reachable s) : entExpiryInv s := by
  obtain ⟨ops, rfl⟩ := h
  suffices hgen : ∀ (l : List LedgerOp) (s0 : ServerState),
      entExpiryInv s0 → entExpiryInv (applyOps s0 l) by
    exact hgen ops initialState entExpiryInv_init
  intro l
  induction l with
  | nil => intro s0 h0; exact h0
  | cons op rest ih =>
    intro s0 h0
    exact ih (applyOp s0 op) (entExpiryInv_applyOp s0 op h0)

theorem mapChatError_ne_badRequest (e : CallError) : mapChatError e ≠ .badRequest := by
  unfold mapChatError
  split
  · simp
  · split
    · simp
    · split <;> simp

/-- C7: in every reachable state of the quota ledger (any operation sequence
applied from the initial state), `hasExceededTokenLimit(u)` returns true iff
the entitlement's `tokenUsage` is at least its `tokenLimit` — in particular,
usage exactly equal to the limit is reported as exceeded. -/
theorem hasExceeded_iff_usage_ge_limit (ops : List LedgerOp) (u : String) :
    (hasExceededTokenLimit (applyOps initialState ops) u).1 = true ↔
      (getUserEntitlements (applyOps initialState ops) u).1.tokenLimit ≤
        (getUserEntitlements (applyOps initialState ops) u).1.tokenUsage := by
  rcases hE : getUserEntitlements (applyOps initialState ops) u with ⟨e, s1⟩
  simp [hasExceededTokenLimit, hE, ge_iff_le]

/-- C3: on a rate-limited attempt `k` on which the retrier retries (the retry
guard is `k < maxRetries` with `maxRetries = 5`) and no `retry-after` hint,
the computed delay lies in `[2^k*1000, 2^k*1000 + 1000]` ms and never exceeds
30000 ms, for every jitter value in `[0, 1000)`; with a hint the delay is
exactly `retryAfterSeconds * 1000` ms. -/
theorem backoff_delay_bounds (k : Nat) (hk : k < 5) (j : ℚ) (hj0 : 0 ≤ j)
    (hj1 : j < 1000) (ras : Nat) :
    (2 : ℚ) ^ k * 1000 ≤ rateLimitDelay none k j ∧
    rateLimitDelay none k j ≤ (2 : ℚ) ^ k * 1000 + 1000 ∧
    rateLimitDelay none k j ≤ 30000 ∧
    rateLimitDelay (some ras) k j = (ras : ℚ) * 1000 := by
  have hpow : (2 : ℚ) ^ k ≤ 16 := by
    interval_cases k <;> norm_num
  have hle : (2 : ℚ) ^ k * 1000 + j ≤ 30000 := by nlinarith
  have hdelay : rateLimitDelay none k j = (2 : ℚ) ^ k * 1000 + j := by
    simp only [rateLimitDelay, backoffDelay]
    exact min_eq_left hle
  rw [hdelay]
  refine ⟨by linarith, by linarith, hle, ?_⟩
  simp [rateLimitDelay]

/-- C3 witness: attempt 3 with jitter 1/2 and hint 7. -/
theorem backoff_delay_bounds_witness :
    (2 : ℚ) ^ 3 * 1000 ≤ rateLimitDelay none 3 (1 / 2) ∧
    rateLimitDelay none 3 (1 / 2) ≤ (2 : ℚ) ^ 3 * 1000 + 1000 ∧
    rateLimitDelay none 3 (1 / 2) ≤ 30000 ∧
    rateLimitDelay (some 7) 3 (1 / 2) = (7 : ℚ) * 1000 :=
  backoff_delay_bounds 3 (by norm_num) (1 / 2) (by norm_num) (by norm_num) 7

/-- C1 counterexample: a request whose `messages` is the empty array is NOT
rejected with 400 — it passes the `!messages || !Array.isArray(messages)`
check and proceeds to the quota check, so for an over-quota user the response
is the 402 quota response, not `InvalidRequest`. -/
theorem chat_empty_messages_reaches_quota_check :
    (chatHandler ⟨some "sk", none⟩ (applyOps initialState [.recordUsage "u1" 100000])
        (.arr []) "openrouter" "u1" (fun _ => .resp 429 none "" .null) (fun _ => 0)).1 =
      .quotaExceeded ⟨"u1", "FREE", 100000, 100000, none⟩ ∧
    (chatHandler ⟨some "sk", none⟩ (applyOps initialState [.recordUsage "u1" 100000])
        (.arr []) "openrouter" "u1" (fun _ => .resp 429 none "" .null) (fun _ => 0)).1 ≠
      .badRequest := by
  constructor
  · rfl
  · intro h
    exact ChatResponse.noConfusion h

/-- C1 amended: the chat endpoint fails with 400 `InvalidRequest` exactly when
`messages` is not an array (any non-array value, truthy or falsy, is
rejected); an array of any length — including the empty array — and of
arbitrarily-shaped elements passes validation, and the request proceeds to
the quota check and dispatch. -/
theorem chat_badRequest_iff_not_array (env : Env) (s : ServerState) (messages : JsValue)
    (provider userId : String) (o : Nat → FetchOutcome) (j : Nat → ℚ) :
    (chatHandler env s messages provider userId o j).1 = .badRequest ↔
      messages.isArray = false := by
  have htr : (messages.truthy && messages.isArray) = messages.isArray := by
    cases messages <;> simp [JsValue.truthy, JsValue.isArray]
  unfold chatHandler
  rw [htr]
  cases harr : messages.isArray
  · simp
  · rcases hX : hasExceededTokenLimit s userId with ⟨exceeded, s1⟩
    simp only [Bool.not_true, Bool.false_eq_true, if_false, hX]
    cases exceeded
    · cases hc : (callOpenAIWithRetry env o j 5 provider).result with
      | error e => simp [mapChatError_ne_badRequest]
      | ok data =>
        cases hin : inputTokensOf messages.elements with
        | none => simp [hin]
        | some inTok =>
          rcases hU : updateUserTokenUsage s1 userId (inTok + outputTokensOf data)
            with ⟨ent, s2⟩
          simp [hin, hU]
    · simp

/-- An environment with only the OpenRouter key configured. -/
def envOR : Env := ⟨some "sk", none⟩

/-- Zero jitter stream. -/
def jZero : Nat → ℚ := fun _ => 0

/-- A structurally valid upstream body with content `"hi"`. -/
def validChoiceData : JsValue :=
  .obj [("choices", .arr [.obj [("message", .obj [("content", .str "hi")])]])]

/-- Oracle: 429 on attempts 0–4, success on attempt 5. -/
def fiveRateLimitedThenOk : Nat → FetchOutcome :=
  fun i => if i < 5 then .resp 429 none "" .null else .resp 200 none "" validChoiceData

/-- Oracle: 429 on every attempt. -/
def alwaysRateLimited : Nat → FetchOutcome := fun _ => .resp 429 none "" .null

/-- C2: with `maxRetries = 5` (attempt indices 0..5, 6 total), a call
rate-limited on the first 5 attempts that succeeds on the 6th returns that
success after exactly 6 attempts; a call rate-limited on every attempt fails
with the rate-limit-exhausted error after exactly 6 attempts, never more. -/
theorem retrier_rate_limit_six_attempts (env : Env) (k : String)
    (hkey : env.OPENROUTER_API_KEY = some k)
    (o oAll : Nat → FetchOutcome) (j : Nat → ℚ) (d : JsValue)
    (ra ra2 : Nat → Option Nat) (bt bt2 : Nat → String) (dd dd2 : Nat → JsValue)
    (ra5 : Option Nat) (bt5 : String)
    (hval : respValid d = true)
    (h1 : ∀ i, i < 5 → o i = .resp 429 (ra i) (bt i) (dd i))
    (h2 : o 5 = .resp 200 ra5 bt5 d)
    (hAll : ∀ i, i ≤ 5 → oAll i = .resp 429 (ra2 i) (bt2 i) (dd2 i)) :
    ((callOpenAIWithRetry env o j 5 "openrouter").result = .ok d ∧
      (callOpenAIWithRetry env o j 5 "openrouter").attempts = 6) ∧
    ((callOpenAIWithRetry env oAll j 5 "openrouter").result =
        .error (.rateLimitExceeded "openrouter") ∧
      (callOpenAIWithRetry env oAll j 5 "openrouter").attempts = 6) := by
  have hv := validateResponse_of_valid "openrouter" d hval
  constructor
  · simp [callOpenAIWithRetry, hkey, runRetryLoop, h1 0 (by norm_num), h1 1 (by norm_num),
      h1 2 (by norm_num), h1 3 (by norm_num), h1 4 (by norm_num), h2, attemptStep, hv,
      selectProvider]
  · simp [callOpenAIWithRetry, hkey, runRetryLoop, hAll 0 (by norm_num), hAll 1 (by norm_num),
      hAll 2 (by norm_num), hAll 3 (by norm_num), hAll 4 (by norm_num), hAll 5 (by norm_num),
      attemptStep, selectProvider, catchDispatch]

/-- C2 witness: the two scenarios run on concrete oracles. -/
theorem retrier_rate_limit_six_attempts_witness :
    ((callOpenAIWithRetry envOR fiveRateLimitedThenOk jZero 5 "openrouter").result =
        .ok validChoiceData ∧
      (callOpenAIWithRetry envOR fiveRateLimitedThenOk jZero 5 "openrouter").attempts = 6) ∧
    ((callOpenAIWithRetry envOR alwaysRateLimited jZero 5 "openrouter").result =
        .error (.rateLimitExceeded "openrouter") ∧
      (callOpenAIWithRetry envOR alwaysRateLimited jZero 5 "openrouter").attempts = 6) :=
  retrier_rate_limit_six_attempts envOR "sk" rfl fiveRateLimitedThenOk alwaysRateLimited
    jZero validChoiceData (fun _ => none) (fun _ => none) (fun _ => "") (fun _ => "")
    (fun _ => .null) (fun _ => .null) none "" rfl
    (fun i hi => by simp [fiveRateLimitedThenOk, hi])
    (by simp [fiveRateLimitedThenOk])
    (fun i _ => rfl)

/-- Oracle: a 500 upstream error whose body text mentions 'rate limit'. -/
def rateLimitTextUpstreamError : Nat → FetchOutcome :=
  fun _ => .resp 500 none "upstream hit the rate limit" .null

/-- C4 counterexample: a non-transient upstream error (HTTP 500) whose body
text contains 'rate limit' is retried 6 times instead of propagating after 1
attempt, because the catch block dispatches on message substrings; this
refutes "the same immediate propagation holds for any other non-transient
UpstreamError". -/
theorem retrier_retries_500_with_rate_limit_text :
    (callOpenAIWithRetry envOR rateLimitTextUpstreamError jZero 5 "openrouter").attempts = 6 ∧
    (callOpenAIWithRetry envOR rateLimitTextUpstreamError jZero 5 "openrouter").result =
      .error (.apiError "openrouter" 500 "upstream hit the rate limit") := by
  constructor <;> rfl

/-- C4 amended: PaymentRequired (402) on the first attempt propagates
immediately — exactly 1 attempt, no retry, no backoff sleep; an upstream
error with any other non-2xx/429/402 status likewise propagates immediately
provided its composed message (`{provider} API error: {status} - {body}`)
contains neither 'rate limit' nor 'fetch'; if it does contain one, the error
is treated as transient and retried (see the counterexample). -/
theorem retrier_immediate_fail_402_and_plain_upstream_error (env : Env) (k : String)
    (hkey : env.OPENROUTER_API_KEY = some k) (j : Nat → ℚ)
    (oPay : Nat → FetchOutcome) (ra : Option Nat) (bt : String) (dd : JsValue)
    (hPay : oPay 0 = .resp 402 ra bt dd)
    (o : Nat → FetchOutcome) (status : Nat) (ra2 : Option Nat) (bt2 : String) (dd2 : JsValue)
    (h0 : o 0 = .resp status ra2 bt2 dd2)
    (hnotok : ¬(200 ≤ status ∧ status < 300)) (hs429 : status ≠ 429) (hs402 : status ≠ 402)
    (hrl : strIncludes (CallError.apiError "openrouter" status bt2).message "rate limit" = false)
    (hft : strIncludes (CallError.apiError "openrouter" status bt2).message "fetch" = false) :
    ((callOpenAIWithRetry env oPay j 5 "openrouter").result = .error .paymentRequired ∧
      (callOpenAIWithRetry env oPay j 5 "openrouter").attempts = 1 ∧
      (callOpenAIWithRetry env oPay j 5 "openrouter").sleeps = []) ∧
    ((callOpenAIWithRetry env o j 5 "openrouter").result =
        .error (.apiError "openrouter" status bt2) ∧
      (callOpenAIWithRetry env o j 5 "openrouter").attempts = 1 ∧
      (callOpenAIWithRetry env o j 5 "openrouter").sleeps = []) := by
  have hf : strIncludes "Payment required. Please add credits to your account." "fetch" = false := by
    decide
  have hr : strIncludes "Payment required. Please add credits to your account." "rate limit" = false := by
    decide
  have hrl2 : strIncludes ("openrouter API error: " ++ toString status ++ " - " ++ bt2)
      "rate limit" = false := hrl
  have hft2 : strIncludes ("openrouter API error: " ++ toString status ++ " - " ++ bt2)
      "fetch" = false := hft
  constructor
  · simp [callOpenAIWithRetry, hkey, runRetryLoop, hPay, attemptStep, selectProvider,
      catchDispatch, CallError.message, CallError.isTypeError, hf, hr]
  · simp [callOpenAIWithRetry, hkey, runRetryLoop, h0, attemptStep, selectProvider,
      catchDispatch, CallError.message, CallError.isTypeError, hrl, hft, hrl2, hft2,
      hnotok, hs429, hs402]

/-- C4 amended witness: 402 and a plain 500 at concrete inputs. -/
theorem retrier_immediate_fail_402_witness :
    ((callOpenAIWithRetry envOR (fun _ => .resp 402 none "" .null) jZero 5 "openrouter").result =
        .error .paymentRequired ∧
      (callOpenAIWithRetry envOR (fun _ => .resp 402 none "" .null) jZero 5 "openrouter").attempts = 1 ∧
      (callOpenAIWithRetry envOR (fun _ => .resp 402 none "" .null) jZero 5 "openrouter").sleeps = []) ∧
    ((callOpenAIWithRetry envOR (fun _ => .resp 500 none "boom" .null) jZero 5 "openrouter").result =
        .error (.apiError "openrouter" 500 "boom") ∧
      (callOpenAIWithRetry envOR (fun _ => .resp 500 none "boom" .null) jZero 5 "openrouter").attempts = 1 ∧
      (callOpenAIWithRetry envOR (fun _ => .resp 500 none "boom" .null) jZero 5 "openrouter").sleeps = []) :=
  retrier_immediate_fail_402_and_plain_upstream_error envOR "sk" rfl jZero
    (fun _ => .resp 402 none "" .null) none "" .null rfl
    (fun _ => .resp 500 none "boom" .null) 500 none "boom" .null rfl
    (by norm_num) (by norm_num) (by norm_num) (by decide) (by decide)

/-- An upstream body whose `choices[0].message.content` is the empty string. -/
def emptyContentResponse : JsValue :=
  .obj [("choices", .arr [.obj [("message", .obj [("content", .str "")])]])]

/-- Oracle returning the empty-content body with HTTP 200. -/
def emptyContentOracle : Nat → FetchOutcome :=
  fun _ => .resp 200 none "" emptyContentResponse

/-- C5 counterexample: a 200 response whose message content is the empty
string fails the claimed non-empty validation, yet the retrier returns it as
a success on the first attempt (the code only logs a warning for empty
content) — it is not treated as `InvalidUpstreamResponse`. -/
theorem retrier_accepts_empty_message_content :
    (callOpenAIWithRetry envOR emptyContentOracle jZero 5 "openrouter").result =
      .ok emptyContentResponse ∧
    (callOpenAIWithRetry envOR emptyContentOracle jZero 5 "openrouter").attempts = 1 :=
  ⟨rfl, rfl⟩

/-- C5 amended: on a 200 response the retrier validates that `choices` and
`choices[0]` are truthy and that `choices[0].message?.content` is a
non-null/undefined string — the empty string passes; any response failing
these checks makes the call fail on that very attempt (exactly 1 attempt, no
retry) with the matching structure/content/type error. -/
theorem retrier_validation_first_attempt (env : Env) (k : String)
    (hkey : env.OPENROUTER_API_KEY = some k) (j : Nat → ℚ)
    (o : Nat → FetchOutcome) (ra : Option Nat) (bt : String) (d : JsValue)
    (h0 : o 0 = .resp 200 ra bt d) :
    (callOpenAIWithRetry env o j 5 "openrouter").attempts = 1 ∧
    ((callOpenAIWithRetry env o j 5 "openrouter").result = .ok d ↔ respValid d = true) ∧
    (respValid d = false →
      ∃ e, (callOpenAIWithRetry env o j 5 "openrouter").result = .error e ∧
        (e = .invalidStructure "openrouter" ∨ e = .noContent "openrouter" ∨
          e = .notString "openrouter")) := by
  cases hrv : respValid d
  · have h3 := validateResponse_of_invalid "openrouter" d hrv
    have hd1 : strIncludes "Invalid response structure from openrouter API" "fetch" = false := by
      decide
    have hd2 : strIncludes "Invalid response structure from openrouter API" "rate limit" = false := by
      decide
    have hd3 : strIncludes "No message content in response from openrouter API" "fetch" = false := by
      decide
    have hd4 : strIncludes "No message content in response from openrouter API" "rate limit" = false := by
      decide
    have hd5 : strIncludes "Message content is not a string from openrouter API" "fetch" = false := by
      decide
    have hd6 : strIncludes "Message content is not a string from openrouter API" "rate limit" = false := by
      decide
    rcases h3 with hv | hv | hv
    · have hrun : callOpenAIWithRetry env o j 5 "openrouter" =
          ⟨.error (.invalidStructure "openrouter"), 1, []⟩ := by
        simp [callOpenAIWithRetry, hkey, runRetryLoop, h0, attemptStep, selectProvider,
          catchDispatch, CallError.message, CallError.isTypeError, hv, hd1, hd2]
      rw [hrun]
      exact ⟨rfl, by simp [hrv], fun _ => ⟨_, rfl, Or.inl rfl⟩⟩
    · have hrun : callOpenAIWithRetry env o j 5 "openrouter" =
          ⟨.error (.noContent "openrouter"), 1, []⟩ := by
        simp [callOpenAIWithRetry, hkey, runRetryLoop, h0, attemptStep, selectProvider,
          catchDispatch, CallError.message, CallError.isTypeError, hv, hd3, hd4]
      rw [hrun]
      exact ⟨rfl, by simp [hrv], fun _ => ⟨_, rfl, Or.inr (Or.inl rfl)⟩⟩
    · have hrun : callOpenAIWithRetry env o j 5 "openrouter" =
          ⟨.error (.notString "openrouter"), 1, []⟩ := by
        simp [callOpenAIWithRetry, hkey, runRetryLoop, h0, attemptStep, selectProvider,
          catchDispatch, CallError.message, CallError.isTypeError, hv, hd5, hd6]
      rw [hrun]
      exact ⟨rfl, by simp [hrv], fun _ => ⟨_, rfl, Or.inr (Or.inr rfl)⟩⟩
  · have hv := validateResponse_of_valid "openrouter" d hrv
    have hrun : callOpenAIWithRetry env o j 5 "openrouter" = ⟨.ok d, 1, []⟩ := by
      simp [callOpenAIWithRetry, hkey, runRetryLoop, h0, attemptStep, selectProvider, hv]
    rw [hrun]
    exact ⟨rfl, by simp, fun h => absurd h (by simp)⟩

/-- C5 amended witness: a body with no `choices` fails on the first attempt
with the structure error. -/
theorem retrier_validation_first_attempt_witness :
    (callOpenAIWithRetry envOR (fun _ => .resp 200 none "" (.obj [])) jZero 5 "openrouter").attempts = 1 ∧
    ((callOpenAIWithRetry envOR (fun _ => .resp 200 none "" (.obj [])) jZero 5 "openrouter").result =
        .ok (.obj []) ↔ respValid (.obj []) = true) ∧
    (respValid (.obj []) = false →
      ∃ e, (callOpenAIWithRetry envOR (fun _ => .resp 200 none "" (.obj [])) jZero 5 "openrouter").result =
          .error e ∧
        (e = .invalidStructure "openrouter" ∨ e = .noContent "openrouter" ∨
          e = .notString "openrouter")) :=
  retrier_validation_first_attempt envOR "sk" rfl jZero
    (fun _ => .resp 200 none "" (.obj [])) none "" (.obj []) rfl

/-- C6: on any reachable ledger state, `upgradeUserPlan(u, P)` for a catalog
plan P overwrites the entitlement's plan key and tokenLimit with the
catalog's values while leaving tokenUsage and expiresAt unchanged (expiresAt
is reassigned `null`, which equals its prior value in every reachable
state); consequently `hasExceededTokenLimit(u)` becomes false whenever the
preserved usage is below the new limit. -/
theorem upgrade_preserves_usage_and_expiry (s : ServerState) (hs : Reachable s)
    (u plan : String) (p : Plan) (hp : PLANS plan = some p) :
    ∃ e2 s2, upgradeUserPlan s u plan = (some e2, s2) ∧
      e2.plan = plan ∧ e2.tokenLimit = p.tokenLimit ∧
      e2.tokenUsage = (getUserEntitlements s u).1.tokenUsage ∧
      e2.expiresAt = (getUserEntitlements s u).1.expiresAt ∧
      ((getUserEntitlements s u).1.tokenUsage < p.tokenLimit →
        (hasExceededTokenLimit s2 u).1 = false) := by
  have hinv := entExpiryInv_reachable s hs
  rcases hE : getUserEntitlements s u with ⟨e, s1⟩
  have hexp : e.expiresAt = none := by
    have := (entExpiry_getEnt s u hinv).1
    rw [hE] at this
    exact this
  refine ⟨{ e with plan := plan, tokenLimit := p.tokenLimit, expiresAt := none },
    { s1 with userEntitlements := assocSet s1.userEntitlements u ({ e with plan := plan, tokenLimit := p.tokenLimit, expiresAt := none }) },
    ?_, rfl, rfl, ?_, ?_, ?_⟩
  · simp [upgradeUserPlan, hE, hp]
  · rfl
  · exact hexp.symm
  · intro hlt
    have hget : assocGet (assocSet s1.userEntitlements u
        ({ e with plan := plan, tokenLimit := p.tokenLimit, expiresAt := none })) u =
        some { e with plan := plan, tokenLimit := p.tokenLimit, expiresAt := none } := by
      simp [assocGet_assocSet]
    simp only [hasExceededTokenLimit, getUserEntitlements, hget]
    simp only [decide_eq_false_iff_not, ge_iff_le, not_le]
    exact hlt

/-- C6 witness: a user with 100,050 tokens used on FREE is upgraded to LITE:
the limit becomes 2,000,000, the usage is preserved, and the user is no
longer over quota. -/
theorem upgrade_preserves_usage_and_expiry_witness :
    ∃ e2 s2, upgradeUserPlan (applyOps initialState [.recordUsage "u1" 100050]) "u1" "LITE" =
        (some e2, s2) ∧
      e2.plan = "LITE" ∧ e2.tokenLimit = (2000000 : Nat) ∧
      e2.tokenUsage =
        (getUserEntitlements (applyOps initialState [.recordUsage "u1" 100050]) "u1").1.tokenUsage ∧
      e2.expiresAt =
        (getUserEntitlements (applyOps initialState [.recordUsage "u1" 100050]) "u1").1.expiresAt ∧
      ((getUserEntitlements (applyOps initialState [.recordUsage "u1" 100050]) "u1").1.tokenUsage <
          (2000000 : Nat) →
        (hasExceededTokenLimit s2 "u1").1 = false) :=
  upgrade_preserves_usage_and_expiry (applyOps initialState [.recordUsage "u1" 100050])
    ⟨[.recordUsage "u1" 100050], rfl⟩ "u1" "LITE" ⟨"Lite Pack", 299, 2000000⟩ rfl

/-- C8 counterexample: a transaction settled to `completed` (terminal) and
then settled again to `failed` CHANGES status and `updatedAt` — terminal
transactions are not immutable, refuting "transitions exactly once" and
"immutable once terminal". -/
theorem settle_overwrites_terminal_status :
    assocGet (applyOps initialState [.createTx "u1" "FREE" "t1" 0,
        .settleTx "t1" "completed" 1, .settleTx "t1" "failed" 2]).paymentTransactions "t1" =
      some ⟨"t1", "u1", "FREE", 0, "failed", 0, 2⟩ := by
  rfl

/-- C8 amended: transactions are created in `pending` status;
`settleTransaction` on an unknown id returns null leaving the store
untouched; on a known id it unconditionally overwrites `status` and
`updatedAt` (preserving id, userId, plan, amount, createdAt) — even when the
transaction is already terminal, so a later call can change a terminal
status. -/
theorem settle_unconditional_overwrite (s : ServerState) (txId status : String) (now : Nat) :
    (∀ (u p i : String) (n : Nat) (t : PaymentTransaction) (s2 : ServerState),
      createPaymentTransaction s u p i n = some (t, s2) → t.status = "pending") ∧
    (assocGet s.paymentTransactions txId = none →
      updatePaymentTransactionStatus s txId status now = (none, s)) ∧
    (∀ t, assocGet s.paymentTransactions txId = some t →
      updatePaymentTransactionStatus s txId status now =
        (some { t with status := status, updatedAt := now },
          { s with paymentTransactions :=
              assocSet s.paymentTransactions txId { t with status := status, updatedAt := now } })) := by
  refine ⟨?_, ?_, ?_⟩
  · intro u p i n t s2 h
    unfold createPaymentTransaction at h
    cases hp : PLANS p <;> rw [hp] at h
    · exact absurd h (by simp)
    · simp only [Option.some.injEq, Prod.mk.injEq] at h
      rw [← h.1]
  · intro h
    unfold updatePaymentTransactionStatus
    rw [h]
  · intro t h
    unfold updatePaymentTransactionStatus
    rw [h]

/-- C8 amended witness: settling an already-completed transaction overwrites
it to `failed`. -/
theorem settle_unconditional_overwrite_witness :
    updatePaymentTransactionStatus ⟨[], [("t1", ⟨"t1", "u1", "FREE", 0, "completed", 0, 1⟩)]⟩
        "t1" "failed" 2 =
      (some ⟨"t1", "u1", "FREE", 0, "failed", 0, 2⟩,
        ⟨[], [("t1", ⟨"t1", "u1", "FREE", 0, "failed", 0, 2⟩)]⟩) :=
  (settle_unconditional_overwrite ⟨[], [("t1", ⟨"t1", "u1", "FREE", 0, "completed", 0, 1⟩)]⟩
    "t1" "failed" 2).2.2 ⟨"t1", "u1", "FREE", 0, "completed", 0, 1⟩ rfl

/-- C9: a provider id outside the registry resolves to the default OpenRouter
configuration — the same credential, endpoint and model as "openrouter" —
instead of failing the request: with the OpenRouter key configured and a
valid upstream response, the call succeeds on the first attempt; the unknown
id never by itself produces an error. -/
theorem unknown_provider_falls_back_to_default (env : Env) (p : String)
    (hp1 : p ≠ "openrouter") (hp2 : p ≠ "gpt5-nano") (k : String)
    (hkey : env.OPENROUTER_API_KEY = some k)
    (o : Nat → FetchOutcome) (j : Nat → ℚ) (ra : Option Nat) (bt : String) (d : JsValue)
    (h0 : o 0 = .resp 200 ra bt d) (hval : respValid d = true) :
    selectProvider env p = selectProvider env "openrouter" ∧
    (callOpenAIWithRetry env o j 5 p).result = .ok d ∧
    (callOpenAIWithRetry env o j 5 p).attempts = 1 := by
  have hv := validateResponse_of_valid p d hval
  have hsel : selectProvider env p =
      ⟨env.OPENROUTER_API_KEY, "https://openrouter.ai/api/v1/chat/completions",
        "openai/gpt-3.5-turbo"⟩ := by
    unfold selectProvider
    split
    · exact absurd rfl hp1
    · exact absurd rfl hp2
    · rfl
  have hkey2 : (selectProvider env p).apiKey = some k := by
    rw [hsel]
    exact hkey
  refine ⟨hsel, ?_, ?_⟩ <;>
    simp [callOpenAIWithRetry, hkey2, runRetryLoop, h0, attemptStep, hv]

/-- C9 witness: provider "unknownX" with the OpenRouter key configured. -/
theorem unknown_provider_falls_back_to_default_witness :
    selectProvider envOR "unknownX" = selectProvider envOR "openrouter" ∧
    (callOpenAIWithRetry envOR (fun _ => .resp 200 none "" validChoiceData) jZero 5 "unknownX").result =
      .ok validChoiceData ∧
    (callOpenAIWithRetry envOR (fun _ => .resp 200 none "" validChoiceData) jZero 5 "unknownX").attempts = 1 :=
  unknown_provider_falls_back_to_default envOR "unknownX" (by decide) (by decide) "sk" rfl
    (fun _ => .resp 200 none "" validChoiceData) jZero none "" validChoiceData rfl rfl

/-- C10: `/api/payment/verify` with all six body fields present, a configured
gateway, a catalog plan and an UNKNOWN transactionId still succeeds: the
settlement step returns null and is silently ignored (the transaction store
is unchanged, no NotFound error), and the plan upgrade takes effect in the
returned entitlements. -/
theorem verify_ignores_unknown_transaction (s : ServerState)
    (userId plan transactionId pid oid sig : String) (now : Nat)
    (hu : userId ≠ "") (hpl : plan ≠ "") (ht : transactionId ≠ "")
    (h4 : pid ≠ "") (h5 : oid ≠ "") (h6 : sig ≠ "")
    (p : Plan) (hplan : PLANS plan = some p)
    (hunknown : assocGet s.paymentTransactions transactionId = none) :
    ∃ ent s2, verifyPaymentHandler s true userId plan transactionId pid oid sig now =
        (.success ent, s2) ∧
      ent.plan = plan ∧ ent.tokenLimit = p.tokenLimit ∧
      ent.tokenUsage = (getUserEntitlements s userId).1.tokenUsage ∧
      s2.paymentTransactions = s.paymentTransactions := by
  rcases hE : getUserEntitlements s userId with ⟨e, s1⟩
  have hpay1 : s1.paymentTransactions = s.paymentTransactions := by
    have := getUserEntitlements_pay s userId
    rw [hE] at this
    exact this
  have hsettle : updatePaymentTransactionStatus s transactionId "completed" now = (none, s) := by
    unfold updatePaymentTransactionStatus
    rw [hunknown]
  have hupg : upgradeUserPlan s userId plan =
      (some { e with plan := plan, tokenLimit := p.tokenLimit, expiresAt := none },
        { s1 with userEntitlements := assocSet s1.userEntitlements userId ({ e with plan := plan, tokenLimit := p.tokenLimit, expiresAt := none }) }) := by
    simp [upgradeUserPlan, hE, hplan]
  have hget2 : assocGet (assocSet s1.userEntitlements userId
      ({ e with plan := plan, tokenLimit := p.tokenLimit, expiresAt := none })) userId =
      some { e with plan := plan, tokenLimit := p.tokenLimit, expiresAt := none } := by
    simp [assocGet_assocSet]
  refine ⟨{ e with plan := plan, tokenLimit := p.tokenLimit, expiresAt := none },
    { s1 with userEntitlements := assocSet s1.userEntitlements userId ({ e with plan := plan, tokenLimit := p.tokenLimit, expiresAt := none }) },
    ?_, rfl, rfl, ?_, ?_⟩
  · unfold verifyPaymentHandler
    rw [hsettle]
    simp only [hu, hpl, ht, h4, h5, h6, hupg, getUserEntitlements, hget2]
    simp
  · rfl
  · exact hpay1

/-- C7 witness: user "u1" with usage exactly equal to the FREE limit is
reported as exceeded. -/
theorem hasExceeded_iff_usage_ge_limit_witness :
    (hasExceededTokenLimit (applyOps initialState [.recordUsage "u1" 100000]) "u1").1 = true ↔
      (getUserEntitlements (applyOps initialState [.recordUsage "u1" 100000]) "u1").1.tokenLimit ≤
        (getUserEntitlements (applyOps initialState [.recordUsage "u1" 100000]) "u1").1.tokenUsage :=
  hasExceeded_iff_usage_ge_limit [.recordUsage "u1" 100000] "u1"

/-- C1 amended witness: the empty messages array is not a bad request. -/
theorem chat_badRequest_iff_not_array_witness :
    (chatHandler envOR initialState (.arr []) "openrouter" "anonymous"
        (fun _ => .resp 429 none "" .null) jZero).1 = .badRequest ↔
      JsValue.isArray (.arr []) = false :=
  chat_badRequest_iff_not_array envOR initialState (.arr []) "openrouter" "anonymous"
    (fun _ => .resp 429 none "" .null) jZero

/-- C10 witness: verify with an unknown transaction id on the initial state
upgrades "u1" to LITE and reports success. -/
theorem verify_ignores_unknown_transaction_witness :
    ∃ ent s2, verifyPaymentHandler initialState true "u1" "LITE" "no-such-tx" "pay1" "ord1" "sig1" 7 =
        (.success ent, s2) ∧
      ent.plan = "LITE" ∧ ent.tokenLimit = (2000000 : Nat) ∧
      ent.tokenUsage = (getUserEntitlements initialState "u1").1.tokenUsage ∧
      s2.paymentTransactions = initialState.paymentTransactions :=
  verify_ignores_unknown_transaction initialState "u1" "LITE" "no-such-tx" "pay1" "ord1" "sig1" 7
    (by decide) (by decide) (by decide) (by decide) (by decide) (by decide)
    ⟨"Lite Pack", 299, 2000000⟩ rfl rfl

end QuadraChat
